import Mathlib

/-!
Verification development for the serenity-ai-frontend repository.

The file shallowly embeds the two route handlers the specification talks
about, `app/api/journal/route.ts` (journal creation) and the Telegram
webhook route, as executable Lean functions, and proves the specified
properties about them.

Conventions of the embedding:
* JavaScript strings are modelled as Lean `String`s (sequences of
  characters); `s.substring(0, n)` is the first `n` characters.
* `await`ed effectful calls are modelled by threading an explicit oracle
  that fixes each external outcome (database errors, network failures,
  model responses), so a handler becomes a pure function from the oracle
  and the store state to its response and observable effects.
* A thrown / rejected promise is modelled by the corresponding `catch`
  branch being taken; fallible steps therefore show up as `Option` or
  `Bool` outcomes in the oracle.
-/

/-! ## JSON values and a JSON parser

`generateTags` in `app/api/journal/route.ts` calls `JSON.parse` on the
cleaned-up model response and falls back to the empty array when parsing
throws.  We embed `JSON.parse` as an executable recursive-descent parser
returning `Option Json`, `none` standing for a thrown `SyntaxError`.
Number literals are kept as their source text: the claims only depend on
whether parsing succeeds, never on numeric values.
-/

inductive Json where
  | null : Json
  | bool (b : Bool) : Json
  | num (lit : String) : Json
  | str (s : String) : Json
  | arr (elems : List Json) : Json
  | obj (members : List (String × Json)) : Json

/-- JSON (RFC 8259) insignificant whitespace, as accepted by `JSON.parse`. -/
def isJsonWs (c : Char) : Bool :=
  c = ' ' || c = '\t' || c = '\n' || c = '\r'

def skipWs : List Char → List Char
  | [] => []
  | c :: cs => if isJsonWs c then skipWs cs else c :: cs

/-- Value of one hexadecimal digit, by code point. -/
def hexDigitVal (c : Char) : Option Nat :=
  let n := c.toNat
  if 48 ≤ n ∧ n ≤ 57 then some (n - 48)
  else if 97 ≤ n ∧ n ≤ 102 then some (n - 87)
  else if 65 ≤ n ∧ n ≤ 70 then some (n - 55)
  else none

/-- Body of a JSON string literal, after the opening quote.  Returns the
decoded characters and the remaining input after the closing quote.
Control characters below U+0020 are rejected, as in `JSON.parse`.
(A `\u` escape in the surrogate range decodes to a default character
here; this affects only the decoded value, never parse success.) -/
def parseStringBody : List Char → Option (List Char × List Char)
  | [] => none
  | '\"' :: rest => some ([], rest)
  | '\\' :: esc =>
    match esc with
    | '\"' :: rest => (parseStringBody rest).map (fun p => ('\"' :: p.1, p.2))
    | '\\' :: rest => (parseStringBody rest).map (fun p => ('\\' :: p.1, p.2))
    | '/' :: rest => (parseStringBody rest).map (fun p => ('/' :: p.1, p.2))
    | 'b' :: rest => (parseStringBody rest).map (fun p => (Char.ofNat 8 :: p.1, p.2))
    | 'f' :: rest => (parseStringBody rest).map (fun p => (Char.ofNat 12 :: p.1, p.2))
    | 'n' :: rest => (parseStringBody rest).map (fun p => ('\n' :: p.1, p.2))
    | 'r' :: rest => (parseStringBody rest).map (fun p => ('\r' :: p.1, p.2))
    | 't' :: rest => (parseStringBody rest).map (fun p => ('\t' :: p.1, p.2))
    | 'u' :: h1 :: h2 :: h3 :: h4 :: rest =>
      match hexDigitVal h1, hexDigitVal h2, hexDigitVal h3, hexDigitVal h4 with
      | some a, some b, some c, some d =>
        (parseStringBody rest).map
          (fun p => (Char.ofNat (((a * 16 + b) * 16 + c) * 16 + d) :: p.1, p.2))
      | _, _, _, _ => none
    | _ => none
  | c :: rest =>
    if c.toNat < 32 then none
    else (parseStringBody rest).map (fun p => (c :: p.1, p.2))

/-- Longest leading run of decimal digits. -/
def takeDigits : List Char → (List Char × List Char)
  | [] => ([], [])
  | c :: cs =>
    if c.isDigit then
      let p := takeDigits cs
      (c :: p.1, p.2)
    else ([], c :: cs)

/-- JSON number grammar: `-? int frac? exp?` with `int = 0 | [1-9][0-9]*`.
Returns the literal text and the rest of the input. -/
def parseNumber (cs : List Char) : Option (List Char × List Char) :=
  let (sign, cs1) :=
    match cs with
    | '-' :: rest => (['-'], rest)
    | _ => ([], cs)
  match cs1 with
  | '0' :: rest => parseFracExp (sign ++ ['0']) rest
  | c :: _ =>
    if c.isDigit then
      let p := takeDigits cs1
      parseFracExp (sign ++ p.1) p.2
    else none
  | [] => none
where
  parseFracExp (intPart : List Char) (cs : List Char) : Option (List Char × List Char) :=
    let (fracPart, cs2) :=
      match cs with
      | '.' :: rest =>
        match takeDigits rest with
        | ([], _) => ([], none)
        | (ds, rest2) => ('.' :: ds, some rest2)
      | _ => ([], some cs)
    match cs2 with
    | none => none
    | some cs2 =>
      match cs2 with
      | e :: rest =>
        if e = 'e' || e = 'E' then
          let (sgn, rest2) :=
            match rest with
            | '+' :: r => (['+'], r)
            | '-' :: r => (['-'], r)
            | _ => ([], rest)
          match takeDigits rest2 with
          | ([], _) => none
          | (ds, rest3) => some (intPart ++ fracPart ++ e :: sgn ++ ds, rest3)
        else some (intPart ++ fracPart, cs2)
      | [] => some (intPart ++ fracPart, [])

mutual

/-- One JSON value, leading whitespace allowed.  `fuel` bounds the call
depth; `jsonParse` supplies ample fuel for its input. -/
def parseValue : Nat → List Char → Option (Json × List Char)
  | 0, _ => none
  | Nat.succ fuel, cs =>
    match skipWs cs with
    | 'n' :: 'u' :: 'l' :: 'l' :: rest => some (.null, rest)
    | 't' :: 'r' :: 'u' :: 'e' :: rest => some (.bool true, rest)
    | 'f' :: 'a' :: 'l' :: 's' :: 'e' :: rest => some (.bool false, rest)
    | '\"' :: rest => (parseStringBody rest).map (fun p => (.str ⟨p.1⟩, p.2))
    | '[' :: rest => parseArrayRest fuel rest
    | '\x7b' :: rest => parseObjRest fuel rest
    | cs1 => (parseNumber cs1).map (fun p => (.num ⟨p.1⟩, p.2))

/-- Array tail after the opening bracket. -/
def parseArrayRest : Nat → List Char → Option (Json × List Char)
  | 0, _ => none
  | Nat.succ fuel, cs =>
    match skipWs cs with
    | ']' :: rest => some (.arr [], rest)
    | cs1 => parseElems fuel cs1 []

/-- Comma-separated array elements up to the closing bracket. -/
def parseElems : Nat → List Char → List Json → Option (Json × List Char)
  | 0, _, _ => none
  | Nat.succ fuel, cs, acc =>
    match parseValue fuel cs with
    | none => none
    | some (v, rest) =>
      match skipWs rest with
      | ',' :: rest2 => parseElems fuel rest2 (acc ++ [v])
      | ']' :: rest2 => some (.arr (acc ++ [v]), rest2)
      | _ => none

/-- Object tail after the opening brace. -/
def parseObjRest : Nat → List Char → Option (Json × List Char)
  | 0, _ => none
  | Nat.succ fuel, cs =>
    match skipWs cs with
    | '\x7d' :: rest => some (.obj [], rest)
    | cs1 => parseMembers fuel cs1 []

/-- Comma-separated `"key": value` members up to the closing brace. -/
def parseMembers : Nat → List Char → List (String × Json) → Option (Json × List Char)
  | 0, _, _ => none
  | Nat.succ fuel, cs, acc =>
    match skipWs cs with
    | '\"' :: rest =>
      match parseStringBody rest with
      | none => none
      | some (key, rest1) =>
        match skipWs rest1 with
        | ':' :: rest2 =>
          match parseValue fuel rest2 with
          | none => none
          | some (v, rest3) =>
            match skipWs rest3 with
            | ',' :: rest4 => parseMembers fuel rest4 (acc ++ [(⟨key⟩, v)])
            | '\x7d' :: rest4 => some (.obj (acc ++ [(⟨key⟩, v)]), rest4)
            | _ => none
        | _ => none
    | _ => none

end

/-- Embedding of `JSON.parse`: `none` models a thrown `SyntaxError`.
Trailing non-whitespace input is rejected, as `JSON.parse` does. -/
def jsonParse (s : String) : Option Json :=
  match parseValue (4 * s.data.length + 8) s.data with
  | some (j, rest) => if (skipWs rest).isEmpty then some j else none
  | none => none

/-! ## Tag generation (`generateTags` in `app/api/journal/route.ts`)

The route cleans the model response with
`text.replace(/BTBTBTjson\n?/g, '').replace(/BTBTBT\n?/g, '').trim()`
(`BT` standing for a backtick here) and then `JSON.parse`s it inside a
`try`, returning `[]` from the `catch`.  The two regex passes are
embedded as left-to-right scans that drop each occurrence of the fence
token together with one optional following newline, exactly as a global
regex replace does.
-/

/-- First replace pass: drop every occurrence of a backtick-backtick-backtick-json
fence, with one optional trailing newline. -/
def stripJsonFences : List Char → List Char
  | '\x60' :: '\x60' :: '\x60' :: 'j' :: 's' :: 'o' :: 'n' :: '\n' :: rest => stripJsonFences rest
  | '\x60' :: '\x60' :: '\x60' :: 'j' :: 's' :: 'o' :: 'n' :: rest => stripJsonFences rest
  | c :: rest => c :: stripJsonFences rest
  | [] => []

/-- Second replace pass: drop every occurrence of a bare triple-backtick
fence, with one optional trailing newline. -/
def stripFences : List Char → List Char
  | '\x60' :: '\x60' :: '\x60' :: '\n' :: rest => stripFences rest
  | '\x60' :: '\x60' :: '\x60' :: rest => stripFences rest
  | c :: rest => c :: stripFences rest
  | [] => []

/-- The whitespace class of JavaScript `String.prototype.trim` (ASCII
whitespace, NBSP and BOM; the rarer Unicode space characters are not
modelled). -/
def isJsWhitespace (c : Char) : Bool :=
  c = ' ' || c = '\t' || c = '\n' || c = '\r' ||
  c = Char.ofNat 11 || c = Char.ofNat 12 || c = Char.ofNat 160 || c = Char.ofNat 0xFEFF

/-- Embedding of JavaScript `trim()`. -/
def jsTrim (s : String) : String :=
  ⟨((s.data.dropWhile isJsWhitespace).reverse.dropWhile isJsWhitespace).reverse⟩

/-- Embedding of JavaScript `toLowerCase()` (ASCII range). -/
def jsLower (s : String) : String :=
  ⟨s.data.map Char.toLower⟩

/-- The `cleanJson` value computed by `generateTags`: both fence-removal
passes followed by `trim()`. -/
def cleanTagsResponse (text : String) : String :=
  jsTrim ⟨stripFences (stripJsonFences text.data)⟩

/-- `generateTags`, as a function of the model response text: parse the
cleaned text, fall back to the empty array when `JSON.parse` throws.
The function is total, so no exception ever escapes to the caller. -/
def generateTags (modelText : String) : Json :=
  match jsonParse (cleanTagsResponse modelText) with
  | some j => j
  | none => Json.arr []

/-! ## Journal creation (`POST` in `app/api/journal/route.ts`)

The handler authenticates, parses the body, generates tags, inserts the
initial row with `is_processing: true` and no enrichment fields, then
builds the Flask dispatch, `await`s it inside a `try` whose `catch` only
logs, and finally returns the created row plus `status: "processing"`.
The oracle fixes the outcome of each awaited step; the handler also
emits an ordered trace of the observable events so that the temporal
claims about the dispatch can be stated.
-/

/-- The row shape inserted by the handler (`initialJournalData`) and
returned to the client; enrichment columns are absent (`none`) at
creation. -/
structure JournalRecord where
  user_id : Option String
  title : String
  content : String
  tags : Json
  is_processing : Bool
  location : Option String
  summary : Option String
  mood_tags : Option (List String)
  keywords : Option (List String)

/-- Outcome of the awaited Flask dispatch promise: resolution, or one of
the three rejection causes handled by the promise wrapper. -/
inductive DispatchOutcome where
  | success : DispatchOutcome
  | networkError : DispatchOutcome
  | non200 (code : Nat) : DispatchOutcome
  | timeout : DispatchOutcome
deriving DecidableEq

/-- Observable events of one `POST /journal` execution, in order. -/
inductive JEvent where
  | inserted : JEvent
  | dispatchSettled (outcome : DispatchOutcome) : JEvent
  | responded : JEvent
deriving DecidableEq

/-- The HTTP response of the handler: the success JSON
`\x7b ...journal, status, message \x7d`, or an error JSON with its HTTP
status code. -/
inductive JResponse where
  | success (record : JournalRecord) (status : String) (message : String) : JResponse
  | failure (httpStatus : Nat) (error : String) : JResponse

/-- Oracle fixing every awaited outcome of one `POST /journal` request. -/
structure JournalOracle where
  /-- `requireAuth()` resolves (`false` models a rejection). -/
  authOk : Bool
  /-- `session?.user.id`. -/
  sessionUserId : Option String
  /-- `request.json()` resolves to a body with these fields. -/
  bodyOk : Bool
  title : String
  content : String
  /-- `JSON.stringify(location)` when a location was sent. -/
  location : Option String
  /-- `model.generateContent` resolves (`false` models a rejection,
  which escapes `generateTags` and hits the outer `catch`). -/
  tagsModelOk : Bool
  /-- The model response text handed to `generateTags`. -/
  tagsModelText : String
  /-- `insertError` of the Supabase insert. -/
  insertError : Option String
  /-- `new URL(...)` on the configured Flask base URL succeeds. -/
  urlOk : Bool
  /-- How the awaited dispatch promise settles. -/
  dispatch : DispatchOutcome

/-- The `POST /journal` handler. -/
def journalPOST (o : JournalOracle) : JResponse × List JEvent :=
  if o.authOk = false then (.failure 500 "Failed to create journal", [])
  else if o.bodyOk = false then (.failure 500 "Failed to create journal", [])
  else if o.tagsModelOk = false then (.failure 500 "Failed to create journal", [])
  else
    let tags := generateTags o.tagsModelText
    let initialJournal : JournalRecord :=
      { user_id := o.sessionUserId
        title := o.title
        content := o.content
        tags := tags
        is_processing := true
        location := o.location
        summary := none
        mood_tags := none
        keywords := none }
    match o.insertError with
    | some msg => (.failure 500 msg, [])
    | none =>
      if o.urlOk = false then
        (.failure 500 "Failed to create journal", [JEvent.inserted])
      else
        (.success initialJournal "processing" "Journal created. Content is being processed.",
         [JEvent.inserted, JEvent.dispatchSettled o.dispatch, JEvent.responded])

def isResponded : JEvent → Bool
  | .responded => true
  | _ => false

def isDispatchSettled : JEvent → Bool
  | .dispatchSettled _ => true
  | _ => false

/-- The response event occurs strictly before the dispatch settles: the
formal reading of a fire-and-forget dispatch on a sequential trace. -/
def responseReleasedBeforeDispatch (tr : List JEvent) : Prop :=
  List.findIdx isResponded tr < List.findIdx isDispatchSettled tr

instance (tr : List JEvent) : Decidable (responseReleasedBeforeDispatch tr) := by
  unfold responseReleasedBeforeDispatch
  infer_instance

/-! ## Telegram webhook route

The second source file contains the Telegram webhook route handler
(`POST`), its helpers `getTelegramChatHistory`, `formatChatHistory`,
`clearChatHistory`, `processUpdate` and `sendTelegramMessage`, plus an
unrelated React chat component.  The route is embedded below.  The
context helpers it imports from `@/lib/ai/*` are not part of the
provided sources and are modelled from the specification where so
marked.
-/

/-- A row of the `telegram_messages` table. -/
structure TgStoredMsg where
  telegram_chat_id : String
  telegram_user_id : String
  content : String
  is_bot : Bool
deriving DecidableEq

/-- The persistent store visible to the route: the `telegram_users`
mapping (`telegram_id` to `user_id`) and the `telegram_messages` log in
insertion order. -/
structure DbState where
  telegramUsers : List (String × String)
  telegramMessages : List TgStoredMsg
deriving DecidableEq

/-- An incoming `update.message`: `chat.id`, `chat.username` and `text`.
`text := none` models a non-text message; the empty string is falsy in
the JavaScript guard and is likewise skipped. -/
structure TgIncoming where
  chatId : Int
  username : Option String
  text : Option String
deriving DecidableEq

/-- An incoming Telegram update. -/
structure TgUpdate where
  message : Option TgIncoming
deriving DecidableEq

/-- Oracle fixing every awaited outcome during `processUpdate`. -/
structure TgOracle where
  /-- The `telegram_users` select returns an error. -/
  lookupError : Bool
  /-- The `telegram_messages` delete returns an error
  (`clearChatHistory` then throws it). -/
  deleteError : Bool
  /-- The `get_telegram_chat_history` RPC returns an error. -/
  historyRpcError : Bool
  /-- The insert of the user message fails (its error object is ignored
  by the code, so the row is simply not stored). -/
  userInsertError : Bool
  /-- The insert of the bot response fails (likewise ignored). -/
  botInsertError : Bool
  /-- `fetchRelevantJournalEntries` degrades (spec section 4.4). -/
  journalFetchFails : Bool
  journalEntries : List String
  moodAnalysis : String
  recommendations : String
  /-- `fetchActivities` degrades. -/
  activitiesFetchFails : Bool
  activities : List String
  /-- `fetchRelevantUserContext` degrades. -/
  userContextFetchFails : Bool
  userContextItems : List String
  /-- The Gemini chat call rejects. -/
  aiFails : Bool
  /-- The Gemini response text on success. -/
  aiResponse : String
  /-- The first `fetch` to the Telegram send API is not `ok`. -/
  sendFails : Bool
deriving DecidableEq

/-- `text.substring(0, 3997) + "..."` applied by `sendTelegramMessage`
when the text exceeds 4000 characters. -/
def truncateTelegramText (text : String) : String :=
  if text.length > 4000 then ⟨text.data.take 3997 ++ ['.', '.', '.']⟩ else text

/-- The fixed fallback sent by the retry branch of `sendTelegramMessage`. -/
def telegramFallbackText : String :=
  "Sorry, the response was too large or took too long. Please try again with a shorter message."

/-- The fixed reply for senders without a `telegram_users` mapping. -/
def notLinkedText : String :=
  "Sorry, your account is not linked. Please sign up on our website first."

/-- The fixed confirmation after a `/clear`. -/
def clearedText : String :=
  "Your chat history has been cleared."

/-- The fixed reply sent by the `catch` around message processing. -/
def processingErrorText : String :=
  "Sorry, something went wrong processing your message."

/-- `sendTelegramMessage`: the texts transmitted to the Telegram API, in
order.  The first attempt always goes out, truncated; when it is not
`ok` the catch retries once with the fixed fallback.  The function never
throws. -/
def sendTelegramMessage (o : TgOracle) (text : String) : List String :=
  let t := truncateTelegramText text
  if o.sendFails then [t, telegramFallbackText] else [t]

/-- Modelled from the spec: the database-side RPC
`get_telegram_chat_history(p_chat_id, p_limit)` is not part of the
provided sources.  Per the specification (`TelegramMessage` is an
append-only log keyed by external chat identifier, fetched as recent
history with a limit), it returns that chat's stored messages, most
recent first, up to the limit. -/
def rpcGetTelegramChatHistory (db : DbState) (chatId : String) (limit : Nat) : List TgStoredMsg :=
  ((db.telegramMessages.filter (fun m => m.telegram_chat_id == chatId)).reverse).take limit

/-- `getTelegramChatHistory`: RPC errors degrade to the empty list. -/
def getTelegramChatHistory (o : TgOracle) (db : DbState) (chatId : String)
    (limit : Nat := 10) : List TgStoredMsg :=
  if o.historyRpcError then [] else rpcGetTelegramChatHistory db chatId limit

/-- `formatChatHistory`: chronological order (oldest first), each line
role-prefixed, joined by blank lines. -/
def formatChatHistory (history : List TgStoredMsg) : String :=
  if history.isEmpty then ""
  else
    String.intercalate "\n\n"
      (history.reverse.map
        (fun m => (if m.is_bot then "Assistant: " else "User: ") ++ m.content))

/-- The store effect of `clearChatHistory`: delete every
`telegram_messages` row whose `telegram_chat_id` equals the chat id. -/
def clearChatHistory (db : DbState) (chatId : String) : DbState :=
  { db with telegramMessages :=
      db.telegramMessages.filter (fun m => !(m.telegram_chat_id == chatId)) }

/-- Modelled from the spec: `fetchRelevantJournalEntries` lives in
`@/lib/ai/journals`, which is not among the provided sources.  Per
section 4.4 of the specification, a failing fetch degrades to an empty
result with a logged warning instead of aborting the pipeline.  Returns
the `(entries, moodAnalysis, recommendations)` triple and the warnings
logged. -/
def fetchRelevantJournalEntries (o : TgOracle) :
    (List String × String × String) × List String :=
  if o.journalFetchFails then (([], "", ""), ["fetchRelevantJournalEntries degraded"])
  else ((o.journalEntries, o.moodAnalysis, o.recommendations), [])

/-- Modelled from the spec: `fetchActivities` from `@/lib/ai/activities`
is not among the provided sources; a failing fetch degrades to an empty
result with a logged warning. -/
def fetchActivities (o : TgOracle) : List String × List String :=
  if o.activitiesFetchFails then ([], ["fetchActivities degraded"])
  else (o.activities, [])

/-- Modelled from the spec: `fetchRelevantUserContext` from
`@/lib/ai/user-context` is not among the provided sources; a failing
fetch degrades to an empty result with a logged warning. -/
def fetchRelevantUserContext (o : TgOracle) : List String × List String :=
  if o.userContextFetchFails then ([], ["fetchRelevantUserContext degraded"])
  else (o.userContextItems, [])

/-- Modelled from the spec: `formatJournalEntries` from
`@/lib/ai/journals` is not among the provided sources; it deterministically
formats the fetched entries into one text block. -/
def formatJournalEntries (entries : List String) : String :=
  String.intercalate "\n" entries

/-- Modelled from the spec: `formatActivities` from
`@/lib/ai/activities` is not among the provided sources; it
deterministically formats the activity catalog into one text block. -/
def formatActivities (activities : List String) : String :=
  String.intercalate "\n" activities

/-- Modelled from the spec: `formatUserContext` from
`@/lib/ai/user-context` is not among the provided sources; it
deterministically formats the user-context items into one text block. -/
def formatUserContext (items : List String) : String :=
  String.intercalate "\n" items

/-- Modelled from the spec: `prepareChatMessages` from `@/lib/ai/chat`
is not among the provided sources.  Per section 4.5 of the
specification it is a pure, deterministic function from the formatted
context blocks and the chat messages to an ordered list of role-tagged
messages. -/
def prepareChatMessages (messages : List (String × String))
    (journalContext activitiesContext moodAnalysis recommendations
      chatHistory userContext : String) : List (String × String) :=
  ("user",
    "Journal context:\n" ++ journalContext ++
    "\nActivities:\n" ++ activitiesContext ++
    "\nMood analysis:\n" ++ moodAnalysis ++
    "\nRecommendations:\n" ++ recommendations ++
    "\nChat history:\n" ++ chatHistory ++
    "\nUser context:\n" ++ userContext) :: messages

/-- `data.message.chat.username || "unknown"`. -/
def effectiveUserName (m : TgIncoming) : String :=
  match m.username with
  | some u => if u = "" then "unknown" else u
  | none => "unknown"

/-- The `telegram_users` select by `telegram_id`: `none` when the select
errors or no row matches (the code treats both alike). -/
def lookupTelegramUser (o : TgOracle) (db : DbState) (userName : String) : Option String :=
  if o.lookupError then none
  else
    match db.telegramUsers.find? (fun p => p.1 == userName) with
    | some p => some p.2
    | none => none

/-- Everything observable from one `processUpdate` run. -/
structure ProcessResult where
  /-- The store after the run. -/
  db : DbState
  /-- Texts transmitted to the Telegram send API, in order. -/
  sends : List String
  /-- How many times the Gemini chat pipeline was invoked. -/
  aiCalls : Nat
  /-- Warnings logged by degraded context fetches. -/
  warnings : List String
  /-- The role-tagged messages built for the model (empty when the AI
  pipeline was not reached). -/
  prompt : List (String × String)
deriving DecidableEq

/-- The body of `processUpdate` after the linked-user and text guards:
the `/clear` short-circuit, then the store/fetch/prompt/AI/reply
pipeline.  A thrown step inside (the delete or the AI call) lands in the
`catch`, which sends the fixed error reply. -/
def handleLinkedMessage (o : TgOracle) (db : DbState) (chatId : String)
    (userName : String) (userMessage : String) : ProcessResult :=
  if jsLower (jsTrim userMessage) = "/clear" then
    if o.deleteError then
      { db := db, sends := sendTelegramMessage o processingErrorText,
        aiCalls := 0, warnings := [], prompt := [] }
    else
      { db := clearChatHistory db chatId,
        sends := sendTelegramMessage o clearedText,
        aiCalls := 0, warnings := [], prompt := [] }
  else
    let db1 :=
      if o.userInsertError then db
      else { db with telegramMessages :=
              db.telegramMessages ++ [⟨chatId, userName, userMessage, false⟩] }
    let chatHistory := getTelegramChatHistory o db1 chatId 10
    let formattedChatHistory := formatChatHistory chatHistory
    let (journalRes, w1) := fetchRelevantJournalEntries o
    let (activities, w2) := fetchActivities o
    let (userContextItems, w3) := fetchRelevantUserContext o
    let journalContext := formatJournalEntries journalRes.1
    let activitiesContext := formatActivities activities
    let userContext := formatUserContext userContextItems
    let geminiMessages := prepareChatMessages [("user", userMessage)]
      journalContext activitiesContext journalRes.2.1 journalRes.2.2
      formattedChatHistory userContext
    if o.aiFails then
      { db := db1, sends := sendTelegramMessage o processingErrorText,
        aiCalls := 1, warnings := w1 ++ w2 ++ w3, prompt := geminiMessages }
    else
      let db2 :=
        if o.botInsertError then db1
        else { db1 with telegramMessages :=
                db1.telegramMessages ++ [⟨chatId, userName, o.aiResponse, true⟩] }
      { db := db2, sends := sendTelegramMessage o o.aiResponse,
        aiCalls := 1, warnings := w1 ++ w2 ++ w3, prompt := geminiMessages }

/-- `processUpdate`: guard for a text message, account-link lookup, then
the linked-message pipeline.  Total: both of its `catch` blocks swallow
every failure. -/
def processUpdate (o : TgOracle) (db : DbState) (upd : TgUpdate) : ProcessResult :=
  match upd.message with
  | none => { db := db, sends := [], aiCalls := 0, warnings := [], prompt := [] }
  | some m =>
    match m.text with
    | none => { db := db, sends := [], aiCalls := 0, warnings := [], prompt := [] }
    | some userMessage =>
      if userMessage = "" then
        { db := db, sends := [], aiCalls := 0, warnings := [], prompt := [] }
      else
        let chatId := toString m.chatId
        let userName := effectiveUserName m
        match lookupTelegramUser o db userName with
        | none =>
          { db := db, sends := sendTelegramMessage o notLinkedText,
            aiCalls := 0, warnings := [], prompt := [] }
        | some _userId => handleLinkedMessage o db chatId userName userMessage

/-- Environment configuration checked by the webhook `POST` handler. -/
structure TgEnv where
  hasBotToken : Bool
  hasGeminiKey : Bool
deriving DecidableEq

/-- The webhook `POST` handler: the two environment guards return 500;
afterwards the handler returns 200 whether the body parses or not and
whatever `processUpdate` does, since every internal failure is caught.
Returns the HTTP status and the processing outcome when reached. -/
def telegramWebhookPOST (env : TgEnv) (o : TgOracle) (db : DbState)
    (body : Option TgUpdate) : Nat × Option ProcessResult :=
  if env.hasBotToken = false then (500, none)
  else if env.hasGeminiKey = false then (500, none)
  else
    match body with
    | none => (200, none)
    | some upd => (200, some (processUpdate o db upd))

/-! ## Concrete instances used by witnesses and counterexamples -/

/-- A journal-creation oracle on the success path whose dispatch times
out. -/
def journalTimeoutOracle : JournalOracle :=
  { authOk := true, sessionUserId := some "u1", bodyOk := true,
    title := "a day", content := "wrote some code", location := none,
    tagsModelOk := true, tagsModelText := "[\"calm\", \"work\"]",
    insertError := none, urlOk := true, dispatch := .timeout }

/-- A journal-creation oracle on the success path whose dispatch
succeeds. -/
def journalSuccessOracle : JournalOracle :=
  { authOk := true, sessionUserId := some "u1", bodyOk := true,
    title := "a day", content := "wrote some code", location := none,
    tagsModelOk := true, tagsModelText := "[\"calm\"]",
    insertError := none, urlOk := true, dispatch := .success }

/-- A model response that is not valid JSON even after fence stripping. -/
def malformedModelText : String := "Here are some tags: [\"calm\", \"work\""

/-- A 4001-character text. -/
def longText : String := ⟨List.replicate 4001 'a'⟩

/-- A Telegram oracle in which every external call succeeds. -/
def happyTgOracle : TgOracle :=
  { lookupError := false, deleteError := false, historyRpcError := false,
    userInsertError := false, botInsertError := false,
    journalFetchFails := false, journalEntries := ["went hiking"],
    moodAnalysis := "calm", recommendations := "walk",
    activitiesFetchFails := false, activities := ["breathing"],
    userContextFetchFails := false, userContextItems := ["likes tea"],
    aiFails := false, aiResponse := "Hello!", sendFails := false }

/-- `happyTgOracle` with a degraded journal fetch. -/
def journalFetchFailOracle : TgOracle :=
  { happyTgOracle with journalFetchFails := true }

/-- A store with one linked user (`alice`) and two stored messages, one
of them in chat `42`. -/
def witnessDb : DbState :=
  { telegramUsers := [("alice", "u1")],
    telegramMessages := [⟨"42", "alice", "old message", false⟩, ⟨"7", "bob", "other chat", false⟩] }

/-- An update from the linked user `alice` in chat 42. -/
def aliceMsg (t : String) : TgIncoming := ⟨42, some "alice", some t⟩

/-- An update from the unlinked user `eve` in chat 42. -/
def eveMsg (t : String) : TgIncoming := ⟨42, some "eve", some t⟩

/-- Environment with the bot token missing. -/
def noTokenEnv : TgEnv := ⟨false, true⟩

/-- Fully configured environment. -/
def okEnv : TgEnv := ⟨true, true⟩

/-! ## Helper lemmas -/

theorem sendTelegramMessage_short (o : TgOracle) (hsend : o.sendFails = false)
    (s : String) (hlen : s.length ≤ 4000) : sendTelegramMessage o s = [s] := by
  have ht : truncateTelegramText s = s := by
    unfold truncateTelegramText
    rw [if_neg (by omega)]
  simp [sendTelegramMessage, hsend, ht]

theorem filter_not_beq_filter_beq {α : Type} (l : List α) (f : α → String) (c : String) :
    ((l.filter (fun x => !(f x == c))).filter (fun x => f x == c)) = [] := by
  induction l with
  | nil => rfl
  | cons a l ih =>
    by_cases h : (f a == c) = true
    · simp [List.filter_cons, h, ih]
    · simp only [Bool.not_eq_true] at h
      simp [List.filter_cons, h, ih]

/-! ## Claims -/

/-- Claim C1: for every journal creation request in which the database
insert succeeds (and the request reaches the dispatch step), the handler
returns the created record with `is_processing = true`, the enrichment
fields `summary`, `mood_tags` and `keywords` absent, and status
`"processing"` — whatever the dispatch outcome, including network error,
non-200 status and timeout. -/
theorem journal_creation_returns_processing_record (o : JournalOracle)
    (hauth : o.authOk = true) (hbody : o.bodyOk = true)
    (htags : o.tagsModelOk = true) (hurl : o.urlOk = true)
    (hins : o.insertError = none) :
    (journalPOST o).1 =
      JResponse.success
        { user_id := o.sessionUserId, title := o.title, content := o.content,
          tags := generateTags o.tagsModelText, is_processing := true,
          location := o.location, summary := none, mood_tags := none,
          keywords := none }
        "processing" "Journal created. Content is being processed." := by
  simp [journalPOST, hauth, hbody, htags, hurl, hins]

/-- Witness for C1 at a concrete request whose dispatch times out. -/
theorem journal_creation_returns_processing_record_witness :
    journalTimeoutOracle.insertError = none ∧
    journalTimeoutOracle.dispatch = DispatchOutcome.timeout ∧
    (journalPOST journalTimeoutOracle).1 =
      JResponse.success
        { user_id := journalTimeoutOracle.sessionUserId,
          title := journalTimeoutOracle.title,
          content := journalTimeoutOracle.content,
          tags := generateTags journalTimeoutOracle.tagsModelText,
          is_processing := true, location := journalTimeoutOracle.location,
          summary := none, mood_tags := none, keywords := none }
        "processing" "Journal created. Content is being processed." :=
  ⟨rfl, rfl,
    journal_creation_returns_processing_record journalTimeoutOracle rfl rfl rfl rfl rfl⟩

/-- Claim C2 counterexample: on a concrete successful creation request
the response event does not precede the settling of the enrichment
dispatch — the handler `await`s the dispatch promise before responding,
so the response is not released before (or racing with) the dispatch. -/
theorem enrichment_dispatch_not_awaited_refuted :
    ¬ responseReleasedBeforeDispatch (journalPOST journalSuccessOracle).2 := by
  decide

/-- Claim C2 (amended): the enrichment dispatch is awaited by the
response path — on every successful creation the dispatch settles
(resolves, fails, or times out) strictly before the response event,
while the response itself is the success payload independent of the
dispatch outcome, which is only logged. -/
theorem enrichment_dispatch_awaited_before_response (o : JournalOracle)
    (hauth : o.authOk = true) (hbody : o.bodyOk = true)
    (htags : o.tagsModelOk = true) (hurl : o.urlOk = true)
    (hins : o.insertError = none) :
    (journalPOST o).2 =
      [JEvent.inserted, JEvent.dispatchSettled o.dispatch, JEvent.responded]
    ∧ List.findIdx isDispatchSettled (journalPOST o).2
        < List.findIdx isResponded (journalPOST o).2 := by
  have htr : (journalPOST o).2 =
      [JEvent.inserted, JEvent.dispatchSettled o.dispatch, JEvent.responded] := by
    simp [journalPOST, hauth, hbody, htags, hurl, hins]
  refine ⟨htr, ?_⟩
  rw [htr]
  simp [List.findIdx, List.findIdx.go, isDispatchSettled, isResponded]

/-- Witness for the amended C2 at a concrete request whose dispatch
fails with a network error. -/
theorem enrichment_dispatch_awaited_before_response_witness :
    journalTimeoutOracle.authOk = true ∧
    ((journalPOST journalTimeoutOracle).2 =
      [JEvent.inserted, JEvent.dispatchSettled journalTimeoutOracle.dispatch,
        JEvent.responded]
    ∧ List.findIdx isDispatchSettled (journalPOST journalTimeoutOracle).2
        < List.findIdx isResponded (journalPOST journalTimeoutOracle).2) :=
  ⟨rfl, enrichment_dispatch_awaited_before_response journalTimeoutOracle rfl rfl rfl rfl rfl⟩

/-- Claim C3: whenever the model response text, after stripping the
markdown code fences, is not valid JSON, tag generation returns the
empty list; `generateTags` is a total function, so no exception reaches
its caller. -/
theorem tag_generation_malformed_json_yields_empty (t : String)
    (h : jsonParse (cleanTagsResponse t) = none) :
    generateTags t = Json.arr [] := by
  simp [generateTags, h]

/-- Witness for C3 at a concrete malformed model response. -/
theorem tag_generation_malformed_json_yields_empty_witness :
    jsonParse (cleanTagsResponse malformedModelText) = none ∧
    generateTags malformedModelText = Json.arr [] :=
  ⟨rfl, tag_generation_malformed_json_yields_empty malformedModelText rfl⟩

/-- Claim C4: every outbound Telegram text longer than 4000 characters
is transmitted as exactly its first 3997 characters followed by a
3-character ellipsis, so its transmitted length is exactly 4000. -/
theorem telegram_truncation_overlong (text : String) (h : 4000 < text.length) :
    (truncateTelegramText text).data = text.data.take 3997 ++ ['.', '.', '.']
    ∧ (truncateTelegramText text).length = 4000 := by
  have hd : 4000 < text.data.length := h
  constructor
  · simp [truncateTelegramText, h]
  · unfold truncateTelegramText
    rw [if_pos h]
    show (List.take 3997 text.data ++ ['.', '.', '.']).length = 4000
    rw [List.length_append, List.length_take,
      Nat.min_eq_left (by omega : 3997 ≤ text.data.length)]
    rfl

/-- Witness for C4 at a concrete 4001-character text. -/
theorem telegram_truncation_overlong_witness :
    4000 < longText.length ∧
    ((truncateTelegramText longText).data = longText.data.take 3997 ++ ['.', '.', '.']
      ∧ (truncateTelegramText longText).length = 4000) :=
  ⟨by norm_num [longText, String.length, List.length_replicate],
    telegram_truncation_overlong longText
      (by norm_num [longText, String.length, List.length_replicate])⟩

/-- Claim C5 counterexample: a request arriving while the bot token is
not configured is answered with status 500, not 200, so the webhook does
not answer 200 for every incoming request regardless of internal
outcome. -/
theorem telegram_webhook_always_200_refuted :
    ¬ ((telegramWebhookPOST noTokenEnv happyTgOracle witnessDb
          (some ⟨some (aliceMsg "hello")⟩)).1 = 200) := by
  decide

/-- Claim C5 (amended): provided the bot token and the AI API key are
configured, the webhook responds 200 to every incoming request —
whether the body parses and whatever `processUpdate` does internally,
since all internal failures are caught and only logged. -/
theorem telegram_webhook_200_when_configured (env : TgEnv) (o : TgOracle)
    (db : DbState) (body : Option TgUpdate)
    (htok : env.hasBotToken = true) (hkey : env.hasGeminiKey = true) :
    (telegramWebhookPOST env o db body).1 = 200 := by
  simp only [telegramWebhookPOST, htok, hkey]
  cases body <;> simp

/-- Witness for the amended C5 at a concrete configured environment and
an unparseable body. -/
theorem telegram_webhook_200_when_configured_witness :
    okEnv.hasBotToken = true ∧
    (telegramWebhookPOST okEnv happyTgOracle witnessDb none).1 = 200 :=
  ⟨rfl, telegram_webhook_200_when_configured okEnv happyTgOracle witnessDb none rfl rfl⟩

/-- Claim C6: a linked sender whose message trims and lowercases to
`/clear` gets all stored messages for that chat identifier deleted and
the fixed confirmation reply, with no AI invocation; afterwards a
chat-history fetch for that chat identifier returns zero messages
(whether or not the later fetch itself errors). -/
theorem clear_command_clears_history (o : TgOracle) (db : DbState)
    (m : TgIncoming) (t uid : String)
    (htext : m.text = some t) (hne : t ≠ "")
    (hclear : jsLower (jsTrim t) = "/clear")
    (hlink : lookupTelegramUser o db (effectiveUserName m) = some uid)
    (hdel : o.deleteError = false) (hsend : o.sendFails = false) :
    (processUpdate o db ⟨some m⟩).db.telegramMessages
        = db.telegramMessages.filter
            (fun msg => !(msg.telegram_chat_id == toString m.chatId))
    ∧ (processUpdate o db ⟨some m⟩).sends = [clearedText]
    ∧ (processUpdate o db ⟨some m⟩).aiCalls = 0
    ∧ ∀ (o2 : TgOracle) (n : Nat),
        getTelegramChatHistory o2 (processUpdate o db ⟨some m⟩).db
          (toString m.chatId) n = [] := by
  have hrun : processUpdate o db ⟨some m⟩ =
      { db := clearChatHistory db (toString m.chatId),
        sends := sendTelegramMessage o clearedText,
        aiCalls := 0, warnings := [], prompt := [] } := by
    simp [processUpdate, htext, hne, hlink, handleLinkedMessage, hclear, hdel]
  rw [hrun]
  refine ⟨rfl, sendTelegramMessage_short o hsend clearedText (by decide), rfl, ?_⟩
  intro o2 n
  unfold getTelegramChatHistory
  by_cases h2 : o2.historyRpcError = true
  · rw [if_pos h2]
  · rw [if_neg h2]
    unfold rpcGetTelegramChatHistory clearChatHistory
    rw [filter_not_beq_filter_beq]
    simp

/-- Witness for C6: after `alice` sends `  /Clear ` in chat 42, the chat
42 rows are gone, the fixed confirmation is the only reply, no AI call
is made, and a subsequent history fetch for chat 42 is empty. -/
theorem clear_command_clears_history_witness :
    jsLower (jsTrim "  /Clear ") = "/clear" ∧
    ((processUpdate happyTgOracle witnessDb ⟨some (aliceMsg "  /Clear ")⟩).db.telegramMessages
        = witnessDb.telegramMessages.filter
            (fun msg => !(msg.telegram_chat_id == toString (aliceMsg "  /Clear ").chatId))
    ∧ (processUpdate happyTgOracle witnessDb ⟨some (aliceMsg "  /Clear ")⟩).sends = [clearedText]
    ∧ (processUpdate happyTgOracle witnessDb ⟨some (aliceMsg "  /Clear ")⟩).aiCalls = 0
    ∧ ∀ (o2 : TgOracle) (n : Nat),
        getTelegramChatHistory o2
          (processUpdate happyTgOracle witnessDb ⟨some (aliceMsg "  /Clear ")⟩).db
          (toString (aliceMsg "  /Clear ").chatId) n = []) :=
  ⟨by decide,
    clear_command_clears_history happyTgOracle witnessDb (aliceMsg "  /Clear ")
      "  /Clear " "u1" rfl (by decide) (by decide) rfl rfl rfl⟩

/-- Claim C7: a text message from a sender with no stored account
mapping gets exactly one reply, the fixed not-linked text, and the AI is
never invoked; the store is untouched. -/
theorem unlinked_sender_fixed_reply_no_ai (o : TgOracle) (db : DbState)
    (m : TgIncoming) (t : String)
    (htext : m.text = some t) (hne : t ≠ "")
    (hlink : lookupTelegramUser o db (effectiveUserName m) = none)
    (hsend : o.sendFails = false) :
    processUpdate o db ⟨some m⟩ =
      { db := db, sends := [notLinkedText], aiCalls := 0,
        warnings := [], prompt := [] } := by
  have hs := sendTelegramMessage_short o hsend notLinkedText (by decide)
  simp [processUpdate, htext, hne, hlink, hs]

/-- Witness for C7: the unlinked `eve` sends `hello`. -/
theorem unlinked_sender_fixed_reply_no_ai_witness :
    lookupTelegramUser happyTgOracle witnessDb (effectiveUserName (eveMsg "hello")) = none ∧
    processUpdate happyTgOracle witnessDb ⟨some (eveMsg "hello")⟩ =
      { db := witnessDb, sends := [notLinkedText], aiCalls := 0,
        warnings := [], prompt := [] } :=
  ⟨by decide,
    unlinked_sender_fixed_reply_no_ai happyTgOracle witnessDb (eveMsg "hello")
      "hello" rfl (by decide) (by decide) rfl⟩

/-- Claim C8: in the context-assembly step, failure of any of the three
fetches degrades that fetch to an empty result with a logged warning and
does not block the other two or abort the pipeline: the prompt is still
built from the degraded blocks and a response is still produced and
sent. -/
theorem context_fetch_failure_degrades (o : TgOracle) (db : DbState)
    (m : TgIncoming) (t uid : String)
    (htext : m.text = some t) (hne : t ≠ "")
    (hnclear : jsLower (jsTrim t) ≠ "/clear")
    (hlink : lookupTelegramUser o db (effectiveUserName m) = some uid)
    (hai : o.aiFails = false) :
    (processUpdate o db ⟨some m⟩).aiCalls = 1
    ∧ (processUpdate o db ⟨some m⟩).sends = sendTelegramMessage o o.aiResponse
    ∧ (processUpdate o db ⟨some m⟩).prompt =
        prepareChatMessages [("user", t)]
          (formatJournalEntries (if o.journalFetchFails then [] else o.journalEntries))
          (formatActivities (if o.activitiesFetchFails then [] else o.activities))
          (if o.journalFetchFails then "" else o.moodAnalysis)
          (if o.journalFetchFails then "" else o.recommendations)
          (formatChatHistory (getTelegramChatHistory o
            (if o.userInsertError then db
              else { db with telegramMessages := db.telegramMessages
                      ++ [⟨toString m.chatId, effectiveUserName m, t, false⟩] })
            (toString m.chatId) 10))
          (formatUserContext (if o.userContextFetchFails then [] else o.userContextItems))
    ∧ (o.journalFetchFails = true → (processUpdate o db ⟨some m⟩).warnings ≠ [])
    ∧ (o.activitiesFetchFails = true → (processUpdate o db ⟨some m⟩).warnings ≠ [])
    ∧ (o.userContextFetchFails = true → (processUpdate o db ⟨some m⟩).warnings ≠ []) := by
  have hrun : processUpdate o db ⟨some m⟩ =
      handleLinkedMessage o db (toString m.chatId) (effectiveUserName m) t := by
    simp [processUpdate, htext, hne, hlink]
  rw [hrun]
  unfold handleLinkedMessage
  rw [if_neg hnclear]
  cases hj : o.journalFetchFails <;> cases ha : o.activitiesFetchFails <;>
    cases hu : o.userContextFetchFails <;>
      simp [fetchRelevantJournalEntries, fetchActivities, fetchRelevantUserContext,
        hj, ha, hu, hai]

/-- Witness for C8: `alice` sends `hi` while the journal fetch is
degraded; the pipeline still makes one AI call, still replies, and logs
a warning. -/
theorem context_fetch_failure_degrades_witness :
    journalFetchFailOracle.journalFetchFails = true ∧
    (processUpdate journalFetchFailOracle witnessDb ⟨some (aliceMsg "hi")⟩).aiCalls = 1 ∧
    (processUpdate journalFetchFailOracle witnessDb ⟨some (aliceMsg "hi")⟩).warnings ≠ [] :=
  ⟨rfl,
    (context_fetch_failure_degrades journalFetchFailOracle witnessDb (aliceMsg "hi")
      "hi" "u1" rfl (by decide) (by decide) rfl rfl).1,
    (context_fetch_failure_degrades journalFetchFailOracle witnessDb (aliceMsg "hi")
      "hi" "u1" rfl (by decide) (by decide) rfl rfl).2.2.2.1 rfl⟩

/-- Claim C9: texts of at most 4000 characters are transmitted
unchanged, and every transmitted text has length at most 4000. -/
theorem telegram_send_length_invariant (text : String) :
    (text.length ≤ 4000 → truncateTelegramText text = text)
    ∧ (truncateTelegramText text).length ≤ 4000 := by
  unfold truncateTelegramText
  by_cases h : 4000 < text.length
  · rw [if_pos h]
    constructor
    · intro hle; omega
    · show (List.take 3997 text.data ++ ['.', '.', '.']).length ≤ 4000
      rw [List.length_append, List.length_take]
      have h3 : (['.', '.', '.'] : List Char).length = 3 := rfl
      omega
  · rw [if_neg h]
    exact ⟨fun _ => rfl, by omega⟩

/-- Witness for C9 at a concrete short text. -/
theorem telegram_send_length_invariant_witness :
    ("hi" : String).length ≤ 4000 ∧ truncateTelegramText "hi" = "hi" :=
  ⟨by decide, (telegram_send_length_invariant "hi").1 (by decide)⟩

/-- Claim C10: the account-linking check precedes command handling — an
unlinked sender whose message is `/clear` gets the fixed not-linked
reply, the store (in particular that chat's message history) is left
unchanged, and no deletion and no AI call occur. -/
theorem unlinked_clear_no_deletion (o : TgOracle) (db : DbState)
    (m : TgIncoming)
    (htext : m.text = some "/clear")
    (hlink : lookupTelegramUser o db (effectiveUserName m) = none)
    (hsend : o.sendFails = false) :
    processUpdate o db ⟨some m⟩ =
      { db := db, sends := [notLinkedText], aiCalls := 0,
        warnings := [], prompt := [] } := by
  have hs := sendTelegramMessage_short o hsend notLinkedText (by decide)
  simp [processUpdate, htext, hlink, hs]

/-- Witness for C10: the unlinked `eve` sends `/clear`; the store is
untouched and the only reply is the not-linked text. -/
theorem unlinked_clear_no_deletion_witness :
    lookupTelegramUser happyTgOracle witnessDb (effectiveUserName (eveMsg "/clear")) = none ∧
    processUpdate happyTgOracle witnessDb ⟨some (eveMsg "/clear")⟩ =
      { db := witnessDb, sends := [notLinkedText], aiCalls := 0,
        warnings := [], prompt := [] } :=
  ⟨by decide,
    unlinked_clear_no_deletion happyTgOracle witnessDb (eveMsg "/clear") rfl
      (by decide) rfl⟩
